import Mathlib

/-!
Verification of the LabJack T7 firmware-upgrade core
(`src/labjack_t7_upgrade.js`) against its natural-language specification.

Shallow-embedding conventions used throughout this file:

* A settled q promise is a `POutcome`: `resolved` with its value, `rejected`
  with the (stringified) rejection value, or `pending` when it never settles.
* JavaScript numbers that hold 32-bit register words, addresses or counts are
  modelled as `Nat`; firmware-version values (compared with a 1e-4 tolerance
  in the source) are modelled as exact rationals `ℚ`.
* Buffers of firmware data are modelled as lists of 32-bit words
  (`List Nat`); a byte offset `o` in the source corresponds to the word
  offset `o / 4` here (the source only ever uses offsets that are multiples
  of 4 and reads whole big-endian words with `readUInt32BE`).
* Driver constants imported from the external `labjack-nodejs` package
  (block sizes, flash addresses, permission keys) are not part of this
  repository; every definition below is parametric in them, and concrete
  evaluations instantiate the block size with 8, the per-chunk payload
  granularity that the write path of `createFlashOperation` hardcodes.
-/

namespace T7Upgrade

/-- Result of a q deferred / promise: resolved with a value, rejected with
the (stringified) rejection value, or pending forever (a deferred whose
`resolve` and `reject` are never called). -/
inductive POutcome (α : Type) where
  | resolved (a : α)
  | rejected (e : String)
  | pending
deriving DecidableEq

/-- Models `promise.then(onFulfilled, onRejected)` on an already-settled promise:
the fulfillment handler runs on a resolved value, the rejection handler on a
rejected value, and a pending promise stays pending. -/
def pthen {α β : Type} (p : POutcome α) (onF : α → POutcome β)
    (onR : String → POutcome β) : POutcome β :=
  match p with
  | .resolved a => onF a
  | .rejected e => onR e
  | .pending => .pending

/-- The header fields of the firmware image that `checkCompatibility`
inspects (parsed by `readFirmwareFile`, lines 316-344 of the source).
`containedVersion` is the big-endian float at `HEADER_VERSION` truncated to
four decimals; the source keeps it as a string and compares it to the
filename-derived version with the coercing `==`, which is numeric equality,
so it is modelled as an exact rational. -/
structure ImageInformation where
  headerCode : Nat
  intendedDevice : Nat
  containedVersion : ℚ
deriving DecidableEq

/-- The state threaded through the upgrade pipeline (`DeviceFirmwareBundle`,
lines 137-287). `serial` is the serial number captured before the reboot;
`device` stands for the open device handle, recorded as the serial number
the handle was opened against; `version` is the filename-derived firmware
version (`setFirmwareVersion`, line 371). -/
structure Bundle where
  serial : Nat
  device : Nat
  version : ℚ
  imageInfo : ImageInformation
deriving DecidableEq

/-- One compound `rwMany` transaction issued by `createFlashOperation`
(`createExecution`, lines 570-630): the value written to the flash pointer
register, the word count pushed onto `numValues` for the data frame
(`numValues.push(innerSize)`, line 614), and, for a write operation, the
words pushed onto `values` (line 611); `none` for a read. -/
structure Chunk where
  address : Nat
  count : Nat
  payload : Option (List Nat)
deriving DecidableEq

instance : Inhabited Chunk := ⟨⟨0, 0, none⟩⟩

/-- Models `getdata(imageBuffer, numIntegers, offset)` (lines 632-638): reads
`numIntegers` consecutive big-endian 32-bit words starting at byte offset
`offset`; modelled at word granularity (`offsetWords = offset / 4`). The
source throws a `RangeError` past the end of the buffer; the model reads 0
there, and every theorem about payloads is stated within bounds. -/
def getdata (imageBuffer : List Nat) (numIntegers offsetWords : Nat) : List Nat :=
  (List.range numIntegers).map (fun i => imageBuffer.getD (offsetWords + i) 0)

/-- The sequence of chunk transactions built by `createFlashOperation`
(lines 640-691). `numIterations = floor(length / size)` full chunks are
emitted; the pointer value advances by `size * 4` bytes per chunk
(line 669) while the write-payload offset advances by 32 bytes = 8 words
per chunk (`getdata(data, 8, offset)` and `offset += 32`, lines 661-670);
a final chunk of `remainder = length % size` words is appended only when
the remainder is nonzero (lines 673-691), its payload taken at the current
offset. -/
def createFlashOperation (startAddress lengthInts sizeInts : Nat)
    (isReadOp : Bool) (data : List Nat) : List Chunk :=
  let numIterations := lengthInts / sizeInts
  let remainder := lengthInts % sizeInts
  let fullChunks := (List.range numIterations).map (fun i =>
    ⟨startAddress + i * (sizeInts * 4), sizeInts,
      if isReadOp then none else some (getdata data 8 (8 * i))⟩)
  let remChunks : List Chunk :=
    if remainder > 0 then
      [⟨startAddress + numIterations * (sizeInts * 4), remainder,
        if isReadOp then none else some (getdata data remainder (8 * numIterations))⟩]
    else []
  fullChunks ++ remChunks

/-- The words accumulated into `allMemoryRead` by the `async.reduce` over
the chunk executions of a read operation (lines 695-717): each chunk reads
`count` words of the flash region starting at the word selected by its
pointer value. The region is modelled as the list of words at the region
base, and the operation starts at the base (`startAddress = 0`). -/
def flashWordsRead (region : List Nat) (lengthInts blockSize : Nat) : List Nat :=
  (createFlashOperation 0 lengthInts blockSize true []).flatMap
    (fun c => (region.drop (c.address / 4)).take c.count)

/-- The final callback of the `async.reduce` in `createFlashOperation`
(lines 710-716): on success it resolves the deferred with the BUNDLE
(`deferred.resolve(bundle)`, line 714) — `allMemoryRead` is discarded. -/
def createFlashOperationResolve (bundle : Bundle) (_allMemoryRead : List Nat) :
    POutcome Bundle :=
  POutcome.resolved bundle

/-- Models `readFlash` (lines 731-745): a read-direction `createFlashOperation`
over the given region. -/
def readFlash (bundle : Bundle) (region : List Nat) (lengthInts blockSize : Nat) :
    POutcome Bundle :=
  createFlashOperationResolve bundle (flashWordsRead region lengthInts blockSize)

/-- Models `readImage(bundle)` (lines 755-773): reads the whole image region and
then resolves with the bundle (`deferred.resolve(bundle)`, line 768),
discarding `memoryContents`. -/
def readImage (blockSize : Nat) (bundle : Bundle) (imageRegion : List Nat) :
    POutcome Bundle :=
  pthen (readFlash bundle imageRegion imageRegion.length blockSize)
    (fun _memoryContents => POutcome.resolved bundle)
    (fun e => POutcome.rejected e)

/-- Models `readImageInformation(bundle)` (lines 783-801): reads the whole
image-info region and then resolves with the bundle (line 796). -/
def readImageInformation (blockSize : Nat) (bundle : Bundle) (infoRegion : List Nat) :
    POutcome Bundle :=
  pthen (readFlash bundle infoRegion infoRegion.length blockSize)
    (fun _memoryContents => POutcome.resolved bundle)
    (fun e => POutcome.rejected e)

/-- Constant `EXPECTED_ZEROED_MEM_VAL` (line 24): 0xFFFFFFFF, the erased-flash
sentinel. -/
def EXPECTED_ZEROED_MEM_VAL : Nat := 4294967295

/-- Models `isAllZeroed(memory)` (lines 816-826): every word equals the
erased-flash sentinel. -/
def isAllZeroed (memory : List Nat) : Bool :=
  memory.all (fun w => w == EXPECTED_ZEROED_MEM_VAL)

/-- The element view `isAllZeroed` gets when `checkErase` hands it a
`DeviceFirmwareBundle` instead of an array: the bundle has no `length`
property, `memory.length` is `undefined`, the loop guard
`i < undefined` is false, so the scan sees no elements at all. -/
def bundleScanWords (_b : Bundle) : List Nat := []

/-- The two flash regions `checkErase` reads back. -/
structure FlashState where
  imageRegion : List Nat
  infoRegion : List Nat
deriving DecidableEq

/-- Models `checkErase(bundle)` (lines 812-861), step for step:
`readImageInformation` resolves with the BUNDLE, not the region words
(line 796), so `checkIfZeroedThenContinue` (lines 828-835) scans the
bundle — which exposes no elements — and, because it returns `undefined`
instead of its inner promise, any rejection it performs is dropped and the
chain continues; `checkMemory(readImage)` (lines 837-851) again receives
the bundle as `memory`; finally the chain resolves the outer deferred with
the bundle (lines 856-858). -/
def checkErase (blockSize : Nat) (bundle : Bundle) (fl : FlashState) :
    POutcome Bundle :=
  pthen (readImageInformation blockSize bundle fl.infoRegion)
    (fun v1 =>
      let _dropped := isAllZeroed (bundleScanWords v1)
      pthen (readImage blockSize bundle fl.imageRegion)
        (fun memory =>
          if isAllZeroed (bundleScanWords memory) = false then
            POutcome.rejected "Memory not zeroed."
          else POutcome.resolved bundle)
        (fun e => POutcome.rejected e))
    (fun e => POutcome.rejected e)

/-- Models `checkCompatibility(bundle)` (lines 410-435), parametric in the driver
constants `T7_HEAD_FIRST_FOUR_BYTES` (`expectedHeaderCode`) and
`ALLOWED_IMAGE_INFO_DEVICE_TYPES` (`allowedTypes`): three predicates are
evaluated, the bundle is resolved when all hold, and otherwise the first
failing predicate in the order header-code, device-type, version determines
the rejection message (lines 423-432). -/
def checkCompatibility (expectedHeaderCode : Nat) (allowedTypes : List Nat)
    (bundle : Bundle) : POutcome Bundle :=
  let info := bundle.imageInfo
  let headerCodeCorrect := info.headerCode == expectedHeaderCode
  let intendedDeviceCorrect := decide (info.intendedDevice ∈ allowedTypes)
  let versionCorrect := decide (info.containedVersion = bundle.version)
  if headerCodeCorrect && intendedDeviceCorrect && versionCorrect then
    POutcome.resolved bundle
  else if !headerCodeCorrect then POutcome.rejected "Invalid header code."
  else if !intendedDeviceCorrect then POutcome.rejected "Incorrect device type."
  else POutcome.rejected "Incorrect version."

/-- Models `checkNewFirmware(bundle)` (lines 1184-1214): reads `FIRMWARE_VERSION`
from the reopened device, forms `dif = bundleVersion - reported`, rejects
when `Math.abs(dif) > 0.0001` and resolves otherwise (lines 1192-1198). -/
def checkNewFirmware (bundleVersion reportedVersion : ℚ) : POutcome Unit :=
  let dif := bundleVersion - reportedVersion
  if |dif| > 1 / 10000 then
    POutcome.rejected "New firmware version does not reflect upgrade."
  else POutcome.resolved ()

/-- The process-wide progress state (`curOffset`, `curScaling`,
`shouldUpdateProgressBar`, lines 35-37). -/
structure ProgressState where
  curOffset : ℚ
  curScaling : ℚ
  shouldUpdateProgressBar : Bool
deriving DecidableEq

/-- Initial values of the progress globals (lines 35-37). -/
def initialProgressState : ProgressState := ⟨0, 0, false⟩

/-- Models `updateProgressScaled(value)` (lines 40-45): reported to the global
progress listener only while `shouldUpdateProgressBar` is set; returns the
list of percent values emitted by one call. -/
def updateProgressScaled (st : ProgressState) (value : Nat) : List ℚ :=
  if st.shouldUpdateProgressBar then
    [st.curScaling * (value : ℚ) + st.curOffset]
  else []

/-- The percent values emitted by the `async.reduce` of one
`createFlashOperation` (lines 693-709): before each chunk execution the
counter is incremented by `sizeInts` — also before the final partial
chunk — and passed to `updateProgressScaled` (lines 699-700). -/
def flashOpEmissions (st : ProgressState) (lengthInts blockSize : Nat) : List ℚ :=
  (List.range (createFlashOperation 0 lengthInts blockSize true []).length).flatMap
    (fun k => updateProgressScaled st ((k + 1) * blockSize))

/-- Models `writeImage(minPercent, maxPercent)(bundle)` (lines 905-938): sets
`shouldUpdateProgressBar = true` (line 909), installs
`curScaling = (max-min)/numberOfIntegers` and `curOffset = min`
(lines 913-915), streams per-chunk progress through the flash write, and
clears the flag on completion (line 926). Returns the emitted percent
values and the final progress state; `nImg` is the image size in words. -/
def writeImage (minPercent maxPercent : ℚ) (nImg blockSize : Nat)
    (_st : ProgressState) : List ℚ × ProgressState :=
  let st1 : ProgressState := ⟨minPercent, (maxPercent - minPercent) / (nImg : ℚ), true⟩
  (flashOpEmissions st1 nImg blockSize, ⟨st1.curOffset, st1.curScaling, false⟩)

/-- Models `writeImageInformation(minPercent, maxPercent)(bundle)`
(lines 951-985): installs `curScaling` and `curOffset` for the 85-90 range
(lines 960-962) but — unlike `writeImage` — never sets
`shouldUpdateProgressBar`, so the flag keeps its incoming value; the
completion handler clears it (line 973). `nInfo` is the raw image-info
size in words (128 bytes = 32 words). -/
def writeImageInformation (minPercent maxPercent : ℚ) (nInfo blockSize : Nat)
    (st : ProgressState) : List ℚ × ProgressState :=
  let st1 : ProgressState :=
    ⟨minPercent, (maxPercent - minPercent) / (nInfo : ℚ), st.shouldUpdateProgressBar⟩
  (flashOpEmissions st1 nInfo blockSize, ⟨st1.curOffset, st1.curScaling, false⟩)

/-- The full sequence of percent values handed to
`progressListener.update` during one successful `updateFirmware` run
(lines 1279-1307): the fixed checkpoints 10 (after `checkCompatibility`)
and 30 (after the erases), the values streamed by
`writeImage(30, 85)` and `writeImageInformation(85, 90)`, then the fixed
checkpoints 90 and 100. `nImg` and `nInfo` are the image and image-info
sizes in words. -/
def updateFirmwareProgressTrace (nImg nInfo blockSize : Nat) : List ℚ :=
  let r1 := writeImage 30 85 nImg blockSize initialProgressState
  let r2 := writeImageInformation 85 90 nInfo blockSize r1.2
  [10, 30] ++ r1.1 ++ r2.1 ++ [90, 100]

/-- Which stage functions of the `updateFirmware` promise chain
(lines 1279-1307) got to run (i.e. were invoked as a fulfillment
handler). -/
inductive Stage where
  | readFirmwareFile
  | injectDevice
  | checkCompatibility
  | progressTen
  | statusErasing
  | eraseImage
  | eraseImageInformation
  | progressThirty
  | statusWriting
  | writeImage
  | writeImageInformation
  | progressNinety
  | statusRestarting
  | restartAndUpgrade
  | closeDevice
  | statusWaiting
  | pauseForClose
  | waitForEnumeration
  | checkNewFirmware
  | progressHundred
deriving DecidableEq

/-- Success or failure of each fallible external interaction of one
`updateFirmware` run; stages that cannot fail (progress and status-text
callbacks, `pauseForClose`) have no flag. `enumerationFinds` tells whether
the rebooted device ever reappears and reopens. -/
structure RunConfig where
  readOk : Bool
  injectOk : Bool
  compatOk : Bool
  eraseImageOk : Bool
  eraseInfoOk : Bool
  writeImageOk : Bool
  writeInfoOk : Bool
  restartOk : Bool
  closeOk : Bool
  enumerationFinds : Bool
  checkFwOk : Bool
deriving DecidableEq

/-- The error-handler factory `reportError(message)` (lines 1241-1254):
rejects the outer deferred with the error (first rejection wins) and
rethrows it, so the rejection keeps propagating down the chain. -/
def reportError : String → POutcome Bundle := fun e => POutcome.rejected e

/-- Models `forceClose(bundle)` (lines 1060-1085), installed as the REJECTION
handler of the `closeDevice` link (line 1301), so it runs when
`restartAndUpgrade` fails: its first statement dereferences the local
`device` before the hoisted `var device = bundle.getDevice()` has run
(`device.handle` on `undefined`), so it throws a TypeError, which the
chain turns into a rejection. -/
def forceCloseHandler : String → POutcome Bundle := fun _ =>
  POutcome.rejected "TypeError: Cannot read property of undefined"

/-- The state of one `updateFirmware` run part-way down the promise chain:
the settlement of the chain itself, the stage functions that have run, and
the settlement of the OUTER deferred returned to the caller (`none` while
`deferred.resolve` / `deferred.reject` have not been called; q ignores
every later settlement attempt, so the first one wins). -/
structure PipeState where
  chain : POutcome Bundle
  trace : List Stage
  outer : Option (POutcome Bundle)
deriving DecidableEq

/-- One `.then(stageFn, onRejected)` link of the pipeline: runs the stage
function on a resolved chain (recording that the stage ran) and the
rejection handler on a rejected chain. A `reportError` rejection handler
(`settleOnReject = true`) additionally rejects the outer deferred with the
error — first settlement wins — before rethrowing; `forceClose`
(`settleOnReject = false`) touches no deferred before it throws. -/
def pstep (s : PipeState) (name : Stage)
    (onF : Bundle → POutcome Bundle) (onR : String → POutcome Bundle)
    (settleOnReject : Bool) : PipeState :=
  match s.chain with
  | .resolved b => ⟨onF b, s.trace ++ [name], s.outer⟩
  | .rejected e =>
    ⟨onR e, s.trace,
      if settleOnReject then
        match s.outer with
        | none => some (POutcome.rejected e)
        | some o => some o
      else s.outer⟩
  | .pending => ⟨.pending, s.trace, s.outer⟩

/-- The final `.then(deferred.resolve, reportError('finishingUpdate'))`
link (line 1307 of the source): a resolved chain resolves the outer
deferred (if still unsettled); a rejection reaching this link is ignored
(`reportError('finishingUpdate')` skips `safelyReject`), leaving the outer
deferred as the first earlier `reportError` left it; a pending chain
leaves an unsettled outer deferred pending forever. -/
def finalSettle (s : PipeState) : POutcome Bundle :=
  match s.chain with
  | .resolved b =>
    match s.outer with
    | none => POutcome.resolved b
    | some o => o
  | _ =>
    match s.outer with
    | none => POutcome.pending
    | some o => o

/-- The `updateFirmware` promise chain (lines 1279-1307), stage by stage
in source order, with each fallible interaction driven by `cfg`. The
rejection values are the messages the source produces: `closeDevice`
rejects with the BUNDLE itself (line 1054), which `safelyReject`
stringifies to "[object Object]"; `waitForEnumeration` either resolves
with the reopened device or never settles (no rejection path exists in
lines 1107-1173). The final `.then(deferred.resolve, ...)` makes the
outer promise settle exactly like the end of the chain. -/
def updateFirmware (cfg : RunConfig) (b0 : Bundle) : POutcome Bundle × List Stage :=
  let s0 : PipeState :=
    ⟨if cfg.readOk then .resolved b0
     else .rejected "Could not read firmware file: err", [Stage.readFirmwareFile], none⟩
  let s1 := pstep s0 Stage.injectDevice
    (fun b => if cfg.injectOk then .resolved b else .rejected "readSync error") reportError true
  let s2 := pstep s1 Stage.checkCompatibility
    (fun b => if cfg.compatOk then .resolved b else .rejected "Invalid header code.") reportError true
  let s3 := pstep s2 Stage.progressTen (fun b => .resolved b) reportError true
  let s4 := pstep s3 Stage.statusErasing (fun b => .resolved b) reportError true
  let s5 := pstep s4 Stage.eraseImage
    (fun b => if cfg.eraseImageOk then .resolved b else .rejected "eraseImage device error") reportError true
  let s6 := pstep s5 Stage.eraseImageInformation
    (fun b => if cfg.eraseInfoOk then .resolved b else .rejected "eraseImageInformation device error") reportError true
  let s7 := pstep s6 Stage.progressThirty (fun b => .resolved b) reportError true
  let s8 := pstep s7 Stage.statusWriting (fun b => .resolved b) reportError true
  let s9 := pstep s8 Stage.writeImage
    (fun b => if cfg.writeImageOk then .resolved b else .rejected "writeImage device error") reportError true
  let s10 := pstep s9 Stage.writeImageInformation
    (fun b => if cfg.writeInfoOk then .resolved b else .rejected "writeImageInformation device error") reportError true
  let s11 := pstep s10 Stage.progressNinety (fun b => .resolved b) reportError true
  let s12 := pstep s11 Stage.statusRestarting (fun b => .resolved b) reportError true
  let s13 := pstep s12 Stage.restartAndUpgrade
    (fun b => if cfg.restartOk then .resolved b else .rejected "restartAndUpgrade device error") reportError true
  let s14 := pstep s13 Stage.closeDevice
    (fun b => if cfg.closeOk then .resolved b else .rejected "[object Object]") forceCloseHandler false
  let s15 := pstep s14 Stage.statusWaiting (fun b => .resolved b) reportError true
  let s16 := pstep s15 Stage.pauseForClose (fun b => .resolved b) reportError true
  let s17 := pstep s16 Stage.waitForEnumeration
    (fun b => if cfg.enumerationFinds then .resolved ⟨b.serial, b.serial, b.version, b.imageInfo⟩
              else .pending) reportError true
  let s18 := pstep s17 Stage.checkNewFirmware
    (fun b => if cfg.checkFwOk then .resolved b
              else .rejected "New firmware version does not reflect upgrade.") reportError true
  let s19 := pstep s18 Stage.progressHundred (fun b => .resolved b) reportError true
  (finalSettle s19, s19.trace)

/-- What one poll of `checkForDevice` (lines 1136-1164) observes: the
target serial absent from `listAll`, or present but `open` fails, or
present with a successful `open`. -/
inductive PollStep where
  | notListed
  | listedOpenFail
  | listedOpenOk
deriving DecidableEq

/-- The polling loop of `waitForEnumeration` (lines 1107-1173), run from
poll index `i` with the given amount of fuel (one unit per
`checkForDevice` invocation, scheduled every `EXPECTED_REBOOT_WAIT` ms):
a successful open installs the newly opened device — opened by the target
serial — into the bundle and resolves (lines 1152-1157); both the
not-listed branch (line 1161) and the failed-open branch (line 1150)
merely reschedule the poll. No branch rejects, and no elapsed-time bound
is checked anywhere in the function. -/
def waitRunFrom (schedule : Nat → PollStep) (b : Bundle) :
    Nat → Nat → POutcome Bundle
  | _, 0 => POutcome.pending
  | i, n + 1 =>
    match schedule i with
    | PollStep.listedOpenOk => POutcome.resolved ⟨b.serial, b.serial, b.version, b.imageInfo⟩
    | _ => waitRunFrom schedule b (i + 1) n

/-- Models `waitForEnumeration(bundle)` observed for `fuel` polls, starting with
the first `checkForDevice` scheduled after the initial reboot wait
(line 1170). -/
def waitForEnumerationRun (schedule : Nat → PollStep) (b : Bundle) (fuel : Nat) :
    POutcome Bundle :=
  waitRunFrom schedule b 0 fuel

/-- A concrete bundle used for the closed evaluations below. -/
def bundleZero : Bundle := ⟨1234, 1234, 1, ⟨0x4C4A4658, 7, 1⟩⟩

/-- A flash state whose image region still holds a non-erased word. -/
def notErasedFlash : FlashState := ⟨[0, 4294967295], [4294967295]⟩

/-- All external interactions succeed. -/
def cfgAllOk : RunConfig :=
  ⟨true, true, true, true, true, true, true, true, true, true, true⟩

/-- Everything succeeds except the `closeDevice` call after the reboot
request. -/
def cfgCloseFail : RunConfig :=
  ⟨true, true, true, true, true, true, true, true, false, true, true⟩

/-- Everything succeeds except `checkCompatibility`. -/
def cfgCompatFail : RunConfig :=
  ⟨true, true, false, true, true, true, true, true, true, true, true⟩

/-- Everything succeeds except the `writeImage` flash write. -/
def cfgWriteFail : RunConfig :=
  ⟨true, true, true, true, true, false, true, true, true, true, true⟩

/-- Everything succeeds except the reboot-request write of
`restartAndUpgrade`. -/
def cfgRestartFail : RunConfig :=
  ⟨true, true, true, true, true, true, true, false, true, true, true⟩

/-- Everything succeeds except the final version check. -/
def cfgCheckFwFail : RunConfig :=
  ⟨true, true, true, true, true, true, true, true, true, true, false⟩

/-- A poll schedule on which the device never reappears. -/
def schedNeverListed : Nat → PollStep := fun _ => PollStep.notListed

/-- A poll schedule on which the device reappears and opens at poll 3. -/
def schedFoundAtThree : Nat → PollStep := fun i =>
  if i = 3 then PollStep.listedOpenOk else PollStep.notListed

/-- The number of chunk transactions built by `createFlashOperation`:
`floor(length / size)` full chunks plus one remainder chunk when the
remainder is nonzero. -/
theorem createFlashOperation_length (s l b : Nat) (r : Bool) (d : List Nat) :
    (createFlashOperation s l b r d).length
      = l / b + (if l % b ≠ 0 then 1 else 0) := by
  unfold createFlashOperation
  by_cases h : l % b = 0
  · simp [h]
  · simp [h, Nat.pos_of_ne_zero h]

/-- Ceiling division `(l + b - 1) / b` counts the full chunks plus one
more exactly when `l` is not a multiple of `b`. -/
theorem ceil_div_eq (l b : Nat) (hb : 0 < b) :
    (l + b - 1) / b = l / b + (if l % b ≠ 0 then 1 else 0) := by
  have hmod := Nat.div_add_mod l b
  have key : l + b - 1 = b * (l / b) + (l % b + b - 1) := by omega
  rw [key, Nat.mul_add_div hb]
  by_cases h : l % b = 0
  · have h0 : (l % b + b - 1) / b = 0 := Nat.div_eq_of_lt (by omega)
    rw [h0]
    simp [h]
  · have hr : l % b < b := Nat.mod_lt _ hb
    have hsplit : l % b + b - 1 = b * 1 + (l % b - 1) := by omega
    have hz : (l % b - 1) / b = 0 := Nat.div_eq_of_lt (by omega)
    rw [hsplit, Nat.mul_add_div hb, hz]
    simp [h]

/-- The chunk at a full-chunk index `i < l / b`. -/
theorem createFlashOperation_get?_lt (s l b : Nat) (r : Bool) (d : List Nat)
    {i : Nat} (h : i < l / b) :
    (createFlashOperation s l b r d).get? i
      = some ⟨s + i * (b * 4), b,
          if r then none else some (getdata d 8 (8 * i))⟩ := by
  unfold createFlashOperation
  rw [List.get?_append (by simpa using h), List.get?_map, List.get?_range h]
  rfl

/-- The final remainder chunk, present when `l % b ≠ 0`, sits at index
`l / b`. -/
theorem createFlashOperation_get?_rem (s l b : Nat) (r : Bool) (d : List Nat)
    (h : l % b ≠ 0) :
    (createFlashOperation s l b r d).get? (l / b)
      = some ⟨s + l / b * (b * 4), l % b,
          if r then none else some (getdata d (l % b) (8 * (l / b)))⟩ := by
  unfold createFlashOperation
  rw [List.get?_append_right (by simp)]
  simp [Nat.pos_of_ne_zero h]

/-- The word counts of the chunks sum to the requested length. -/
theorem createFlashOperation_count_sum (s l b : Nat) (r : Bool) (d : List Nat) :
    ((createFlashOperation s l b r d).map Chunk.count).sum = l := by
  have hmod := Nat.div_add_mod l b
  unfold createFlashOperation
  by_cases h : l % b = 0
  · simp only [h, gt_iff_lt, Nat.lt_irrefl, if_false, List.append_nil,
      List.map_map]
    have : (Chunk.count ∘ fun i =>
        (⟨s + i * (b * 4), b, if r then none else some (getdata d 8 (8 * i))⟩ : Chunk))
        = Function.const Nat b := rfl
    rw [this, List.map_const, List.sum_replicate, List.length_range,
      smul_eq_mul, Nat.mul_comm]
    omega
  · simp only [Nat.pos_of_ne_zero h, if_true, List.map_append, List.sum_append,
      List.map_map, gt_iff_lt]
    have : (Chunk.count ∘ fun i =>
        (⟨s + i * (b * 4), b, if r then none else some (getdata d 8 (8 * i))⟩ : Chunk))
        = Function.const Nat b := rfl
    rw [this, List.map_const, List.sum_replicate, List.length_range,
      smul_eq_mul, Nat.mul_comm]
    simp only [List.map_cons, List.map_nil, List.sum_cons, List.sum_nil]
    omega

/-- C1: a flash operation with block size `b > 0` issues exactly
`⌈length / b⌉` chunk transactions; the pointer value written for chunk `i`
is `start + i * b * 4`; the chunk word counts sum to `length`; a final
partial chunk of `length mod b` words exists exactly when the remainder is
nonzero, and when the remainder is zero every chunk carries a full block. -/
theorem C1_flash_chunking (s l b : Nat) (r : Bool) (d : List Nat) (hb : 0 < b) :
    (createFlashOperation s l b r d).length = (l + b - 1) / b ∧
    (∀ i, i < (createFlashOperation s l b r d).length →
      ((createFlashOperation s l b r d).getD i ⟨0, 0, none⟩).address
        = s + i * b * 4) ∧
    ((createFlashOperation s l b r d).map Chunk.count).sum = l ∧
    (l % b ≠ 0 →
      ((createFlashOperation s l b r d).getLast?).map Chunk.count
        = some (l % b) ∧
      (createFlashOperation s l b r d).length = l / b + 1) ∧
    (l % b = 0 → ∀ c ∈ createFlashOperation s l b r d, c.count = b) := by
  refine ⟨?_, ?_, createFlashOperation_count_sum s l b r d, ?_, ?_⟩
  · rw [createFlashOperation_length, ceil_div_eq l b hb]
  · intro i hi
    rw [createFlashOperation_length] at hi
    by_cases hlt : i < l / b
    · rw [List.getD_eq_get?, createFlashOperation_get?_lt s l b r d hlt]
      show s + i * (b * 4) = s + i * b * 4
      ring
    · have hrem : l % b ≠ 0 := by
        by_contra hz
        simp [hz] at hi
        omega
      have hieq : i = l / b := by
        by_cases hz : l % b ≠ 0 <;> simp [hz] at hi <;> omega
      subst hieq
      rw [List.getD_eq_get?, createFlashOperation_get?_rem s l b r d hrem]
      show s + l / b * (b * 4) = s + l / b * b * 4
      ring
  · intro h
    constructor
    · unfold createFlashOperation
      simp only [Nat.pos_of_ne_zero h, if_true, gt_iff_lt]
      rw [List.getLast?_concat]
      rfl
    · rw [createFlashOperation_length]
      simp [h]
  · intro h c hc
    unfold createFlashOperation at hc
    simp only [h, gt_iff_lt, Nat.lt_irrefl, if_false, List.append_nil] at hc
    obtain ⟨i, _, rfl⟩ := List.mem_map.mp hc
    rfl

/-- Closed witness for C1 at `start = 0`, `length = 5`, `block = 2`. -/
theorem C1_flash_chunking_witness :
    (createFlashOperation 0 5 2 true []).length = (5 + 2 - 1) / 2 ∧
    (∀ i, i < (createFlashOperation 0 5 2 true []).length →
      ((createFlashOperation 0 5 2 true []).getD i ⟨0, 0, none⟩).address
        = 0 + i * 2 * 4) ∧
    ((createFlashOperation 0 5 2 true []).map Chunk.count).sum = 5 ∧
    (5 % 2 ≠ 0 →
      ((createFlashOperation 0 5 2 true []).getLast?).map Chunk.count
        = some (5 % 2) ∧
      (createFlashOperation 0 5 2 true []).length = 5 / 2 + 1) ∧
    (5 % 2 = 0 → ∀ c ∈ createFlashOperation 0 5 2 true [], c.count = 2) :=
  C1_flash_chunking 0 5 2 true [] (by decide)

/-- Within bounds, `getdata` returns the contiguous slice of the buffer. -/
theorem getdata_eq_drop_take (d : List Nat) (n off : Nat)
    (h : off + n ≤ d.length) :
    getdata d n off = (d.drop off).take n := by
  apply List.ext_getElem
  · simp [getdata]
    omega
  · intro i h1 h2
    simp only [getdata, List.getElem_map, List.getElem_range, List.getElem_take,
      List.getElem_drop]
    have hlen : i < n := by simpa [getdata] using h1
    have hib : off + i < d.length := by omega
    rw [List.getD_eq_getElem?_getD, List.getElem?_eq_getElem hib]
    rfl

/-- The last chunk of an operation with a nonzero remainder. -/
theorem createFlashOperation_getLast?_rem (s l b : Nat) (r : Bool)
    (d : List Nat) (h : l % b ≠ 0) :
    (createFlashOperation s l b r d).getLast?
      = some ⟨s + l / b * (b * 4), l % b,
          if r then none else some (getdata d (l % b) (8 * (l / b)))⟩ := by
  unfold createFlashOperation
  simp only [Nat.pos_of_ne_zero h, if_true, gt_iff_lt]
  rw [List.getLast?_concat]

/-- C2 as stated is false: in a write operation with block size 16 over a
32-word buffer, chunk 1 does not carry the 16 words starting at word index
16; it carries the 8 words starting at word index 8, because the payload
offset is advanced by 32 bytes per chunk and `getdata` is always asked for
8 integers (lines 661-670 of the source). -/
theorem C2_payload_counterexample :
    ((createFlashOperation 0 32 16 false (List.range 32)).getD 1
        ⟨0, 0, none⟩).payload
      = some (((List.range 32).drop 8).take 8) ∧
    ((createFlashOperation 0 32 16 false (List.range 32)).getD 1
        ⟨0, 0, none⟩).payload
      ≠ some (((List.range 32).drop (1 * 16)).take 16) := by decide

/-- C2 amended: in a write operation the payload offset advances by 32
bytes (8 words) per chunk regardless of the block size, so full chunk `i`
carries the 8 consecutive words starting at word index `8 * i`, and the
final partial chunk carries the `length mod b` words starting at word
index `8 * (length / b)`; the claim's per-block arithmetic is recovered
exactly when the block size is 8. (Block sizes below 8 make the source
read past the end of the buffer, hence the hypothesis `8 ≤ b`.) -/
theorem C2_payload_amended (s l b : Nat) (d : List Nat)
    (hb : 8 ≤ b) (hd : d.length = l) :
    (∀ i, i < l / b →
      ((createFlashOperation s l b false d).getD i ⟨0, 0, none⟩).payload
        = some ((d.drop (8 * i)).take 8)) ∧
    (l % b ≠ 0 →
      ((createFlashOperation s l b false d).getLast?).map Chunk.payload
        = some (some ((d.drop (8 * (l / b))).take (l % b)))) ∧
    (b = 8 → ∀ i, i < l / b →
      ((createFlashOperation s l b false d).getD i ⟨0, 0, none⟩).payload
        = some ((d.drop (i * b)).take b)) := by
  have hmul : b * (l / b) ≤ l := Nat.mul_div_le l b
  have h8 : 8 * (l / b) ≤ b * (l / b) := Nat.mul_le_mul_right _ hb
  have main : ∀ i, i < l / b →
      ((createFlashOperation s l b false d).getD i ⟨0, 0, none⟩).payload
        = some ((d.drop (8 * i)).take 8) := by
    intro i hi
    rw [List.getD_eq_get?, createFlashOperation_get?_lt s l b false d hi]
    show some (getdata d 8 (8 * i)) = some ((d.drop (8 * i)).take 8)
    rw [getdata_eq_drop_take d 8 (8 * i) (by omega)]
  refine ⟨main, ?_, ?_⟩
  · intro h
    rw [createFlashOperation_getLast?_rem s l b false d h]
    have hrem : l % b ≤ b * (l / b) + l % b - 8 * (l / b) := by omega
    show some (some (getdata d (l % b) (8 * (l / b))))
      = some (some ((d.drop (8 * (l / b))).take (l % b)))
    rw [getdata_eq_drop_take d (l % b) (8 * (l / b)) (by
      have := Nat.div_add_mod l b
      omega)]
  · intro hb8 i hi
    rw [main i hi, hb8, Nat.mul_comm]

/-- Closed witness for the amended C2 at `length = 20`, `block = 8`. -/
theorem C2_payload_amended_witness :
    (∀ i, i < 20 / 8 →
      ((createFlashOperation 0 20 8 false (List.range 20)).getD i
          ⟨0, 0, none⟩).payload
        = some (((List.range 20).drop (8 * i)).take 8)) ∧
    (20 % 8 ≠ 0 →
      ((createFlashOperation 0 20 8 false (List.range 20)).getLast?).map
          Chunk.payload
        = some (some (((List.range 20).drop (8 * (20 / 8))).take (20 % 8)))) ∧
    (8 = 8 → ∀ i, i < 20 / 8 →
      ((createFlashOperation 0 20 8 false (List.range 20)).getD i
          ⟨0, 0, none⟩).payload
        = some (((List.range 20).drop (i * 8)).take 8)) :=
  C2_payload_amended 0 20 8 (List.range 20) (by decide) (by decide)

/-- Flat-mapping singletons is mapping. -/
theorem flatMap_singleton_eq_map {α β : Type} (l : List α) (f : α → β) :
    (l.flatMap fun a => [f a]) = l.map f := by
  induction l with
  | nil => rfl
  | cons x xs ih => simp_all [List.flatMap]

/-- While `shouldUpdateProgressBar` is cleared, a flash operation emits no
progress values (line 41 of the source). -/
theorem flashOpEmissions_flag_false (o c : ℚ) (l b : Nat) :
    flashOpEmissions ⟨o, c, false⟩ l b = [] := by
  simp [flashOpEmissions, updateProgressScaled]

/-- While `shouldUpdateProgressBar` is set, a flash operation emits one
scaled value per chunk: before chunk `k` executes, the counter stands at
`(k + 1) * blockSize` words (lines 693-700 of the source). -/
theorem flashOpEmissions_flag_true (o c : ℚ) (l b : Nat) :
    flashOpEmissions ⟨o, c, true⟩ l b
      = (List.range (createFlashOperation 0 l b true []).length).map
          (fun k => c * (((k + 1) * b : Nat) : ℚ) + o) := by
  rw [flashOpEmissions]
  rw [show (updateProgressScaled ⟨o, c, true⟩)
        = fun v : Nat => [c * (v : ℚ) + o] from rfl]
  exact flatMap_singleton_eq_map _ _

/-- The last element of a list extended by a two-element tail. -/
theorem getLast?_append_pair (l : List ℚ) (a c : ℚ) :
    (l ++ [a, c]).getLast? = some c := by
  rw [show ([a, c] : List ℚ) = [a] ++ [c] from rfl, ← List.append_assoc,
    List.getLast?_concat]

/-- Sandwiching a nondecreasing list between the checkpoints 10, 30 and
90, 100 keeps the whole emission sequence nondecreasing. -/
theorem pairwise_checkpoint_trace (S : List ℚ)
    (hS : List.Pairwise (fun x y => x ≤ y) S)
    (hlo : ∀ x ∈ S, 30 ≤ x) (hhi : ∀ x ∈ S, x ≤ 90) :
    List.Pairwise (fun x y => x ≤ y) ([10, 30] ++ S ++ [90, 100]) := by
  rw [List.append_assoc]
  refine List.pairwise_append.mpr ⟨by norm_num, ?_, ?_⟩
  · refine List.pairwise_append.mpr ⟨hS, by norm_num, ?_⟩
    intro x hx y hy
    have h1 := hhi x hx
    have hy' : y = 90 ∨ y = 100 := by simpa using hy
    rcases hy' with h | h <;> rw [h] <;> linarith
  · intro x hx y hy
    have hx' : x = 10 ∨ x = 30 := by simpa using hx
    rcases List.mem_append.mp hy with hyS | hy2
    · have := hlo y hyS
      rcases hx' with h | h <;> rw [h] <;> linarith
    · have hy' : y = 90 ∨ y = 100 := by simpa using hy2
      rcases hx' with h | h <;> rcases hy' with h2 | h2 <;>
        rw [h, h2] <;> norm_num

/-- C3 as stated is false: for an image of 11 words written with block
size 8 (two chunks, the second partial), the progress counter is advanced
by a full block even for the partial chunk, so the streamed values are 70
and 110 — the sequence overshoots 100, drops back to the fixed checkpoint
90 (so it is not monotone), and the value 85 is never emitted. -/
theorem C3_progress_counterexample :
    ¬ (List.Pairwise (fun x y => x ≤ y) (updateFirmwareProgressTrace 11 32 8) ∧
       (updateFirmwareProgressTrace 11 32 8).getLast? = some 100 ∧
       (85 : ℚ) ∈ updateFirmwareProgressTrace 11 32 8) := by
  have htr : updateFirmwareProgressTrace 11 32 8
      = [10, 30, (85 - 30) / (11 : ℚ) * 8 + 30, (85 - 30) / (11 : ℚ) * 16 + 30,
         90, 100] := by
    have hlen : (createFlashOperation 0 11 8 true []).length = 2 := rfl
    simp [updateFirmwareProgressTrace, writeImage, writeImageInformation,
      flashOpEmissions_flag_false, flashOpEmissions_flag_true, hlen,
      List.range_succ]
    norm_num
  intro h
  obtain ⟨hp, -, -⟩ := h
  rw [htr] at hp
  have p1 := List.pairwise_cons.mp hp
  have p2 := List.pairwise_cons.mp p1.2
  have p3 := List.pairwise_cons.mp p2.2
  have p4 := List.pairwise_cons.mp p3.2
  have h110 : (85 - 30) / (11 : ℚ) * 16 + 30 ≤ 90 := p4.1 90 (by simp)
  norm_num at h110

/-- C3 amended: when the image word count is a positive multiple of the
flash write block size, the percent values delivered across one successful
`updateFirmware` run are monotonically non-decreasing, end at exactly 100,
and contain the checkpoints 10, 30, 85, 90 and 100 (85 being the final
streamed value of the image write; no values at all are streamed during
the image-info write). -/
theorem C3_progress_amended (nImg nInfo b : Nat) (hb : 0 < b) (hN : 0 < nImg)
    (hdvd : b ∣ nImg) :
    List.Pairwise (fun x y => x ≤ y) (updateFirmwareProgressTrace nImg nInfo b) ∧
    (updateFirmwareProgressTrace nImg nInfo b).getLast? = some 100 ∧
    ((10 : ℚ) ∈ updateFirmwareProgressTrace nImg nInfo b) ∧
    ((30 : ℚ) ∈ updateFirmwareProgressTrace nImg nInfo b) ∧
    ((85 : ℚ) ∈ updateFirmwareProgressTrace nImg nInfo b) ∧
    ((90 : ℚ) ∈ updateFirmwareProgressTrace nImg nInfo b) ∧
    ((100 : ℚ) ∈ updateFirmwareProgressTrace nImg nInfo b) := by
  have hrem : nImg % b = 0 := by
    obtain ⟨c, hc⟩ := hdvd
    rw [hc]
    exact Nat.mul_mod_right b c
  have hlen : (createFlashOperation 0 nImg b true []).length = nImg / b := by
    rw [createFlashOperation_length]; simp [hrem]
  have hm : 0 < nImg / b := Nat.div_pos (Nat.le_of_dvd hN hdvd) hb
  have hmn : nImg / b * b = nImg := Nat.div_mul_cancel hdvd
  have hne : (nImg : ℚ) ≠ 0 := Nat.cast_ne_zero.mpr (Nat.pos_iff_ne_zero.mp hN)
  have hcnn : (0 : ℚ) ≤ (85 - 30) / (nImg : ℚ) := by positivity
  have htr : updateFirmwareProgressTrace nImg nInfo b
      = [10, 30] ++ (List.range (nImg / b)).map
          (fun k => (85 - 30) / (nImg : ℚ) * (((k + 1) * b : Nat) : ℚ) + 30)
        ++ [90, 100] := by
    simp [updateFirmwareProgressTrace, writeImage, writeImageInformation,
      flashOpEmissions_flag_false, flashOpEmissions_flag_true, hlen]
  have hfmono : ∀ j k : Nat, j ≤ k →
      (85 - 30) / (nImg : ℚ) * (((j + 1) * b : Nat) : ℚ) + 30
        ≤ (85 - 30) / (nImg : ℚ) * (((k + 1) * b : Nat) : ℚ) + 30 := by
    intro j k hjk
    have hc : (((j + 1) * b : Nat) : ℚ) ≤ (((k + 1) * b : Nat) : ℚ) := by
      exact_mod_cast Nat.mul_le_mul_right b (Nat.succ_le_succ hjk)
    have := mul_le_mul_of_nonneg_left hc hcnn
    linarith
  have hlast : (85 - 30) / (nImg : ℚ) * (((nImg / b - 1 + 1) * b : Nat) : ℚ) + 30
      = 85 := by
    have hsucc : nImg / b - 1 + 1 = nImg / b := by omega
    rw [hsucc, hmn]
    rw [div_mul_cancel₀ _ hne]
    norm_num
  have hlo : ∀ x ∈ (List.range (nImg / b)).map
      (fun k => (85 - 30) / (nImg : ℚ) * (((k + 1) * b : Nat) : ℚ) + 30),
      30 ≤ x := by
    intro x hx
    obtain ⟨k, -, rfl⟩ := List.mem_map.mp hx
    have : (0 : ℚ) ≤ (85 - 30) / (nImg : ℚ) * (((k + 1) * b : Nat) : ℚ) :=
      mul_nonneg hcnn (Nat.cast_nonneg _)
    linarith
  have hhi : ∀ x ∈ (List.range (nImg / b)).map
      (fun k => (85 - 30) / (nImg : ℚ) * (((k + 1) * b : Nat) : ℚ) + 30),
      x ≤ 90 := by
    intro x hx
    obtain ⟨k, hk, rfl⟩ := List.mem_map.mp hx
    have hk' : k ≤ nImg / b - 1 := by
      have := List.mem_range.mp hk
      omega
    have := hfmono k (nImg / b - 1) hk'
    rw [hlast] at this
    linarith
  have hS : List.Pairwise (fun x y : ℚ => x ≤ y)
      ((List.range (nImg / b)).map
        (fun k => (85 - 30) / (nImg : ℚ) * (((k + 1) * b : Nat) : ℚ) + 30)) := by
    refine List.pairwise_map.mpr ?_
    refine (List.pairwise_lt_range (nImg / b)).imp ?_
    intro j k hjk
    exact hfmono j k (Nat.le_of_lt hjk)
  refine ⟨?_, ?_, ?_, ?_, ?_, ?_, ?_⟩
  · rw [htr]
    exact pairwise_checkpoint_trace _ hS hlo hhi
  · rw [htr]
    exact getLast?_append_pair _ 90 100
  · rw [htr]; simp
  · rw [htr]; simp
  · rw [htr]
    refine List.mem_append.mpr (Or.inl (List.mem_append.mpr (Or.inr ?_)))
    refine List.mem_map.mpr ⟨nImg / b - 1, List.mem_range.mpr (by omega), hlast⟩
  · rw [htr]; simp
  · rw [htr]; simp

/-- Closed witness for the amended C3: a 16-word image written in blocks
of 8 (image-info of 32 words). -/
theorem C3_progress_amended_witness :
    List.Pairwise (fun x y => x ≤ y) (updateFirmwareProgressTrace 16 32 8) ∧
    (updateFirmwareProgressTrace 16 32 8).getLast? = some 100 ∧
    ((10 : ℚ) ∈ updateFirmwareProgressTrace 16 32 8) ∧
    ((30 : ℚ) ∈ updateFirmwareProgressTrace 16 32 8) ∧
    ((85 : ℚ) ∈ updateFirmwareProgressTrace 16 32 8) ∧
    ((90 : ℚ) ∈ updateFirmwareProgressTrace 16 32 8) ∧
    ((100 : ℚ) ∈ updateFirmwareProgressTrace 16 32 8) :=
  C3_progress_amended 16 32 8 (by decide) (by decide) (by decide)

/-- C4: the claim matches the function's own documentation ("Error thrown
if the image and image information pages ... are not zeroed") but the code
never rejects on non-erased memory: `readImage` and `readImageInformation`
resolve with the bundle rather than with the words read back,
`checkIfZeroedThenContinue` drops its inner promise, and both scans run
over the bundle, which exposes no elements — so `checkErase` resolves with
the bundle even though the image region here contains the word 0, which
differs from 0xFFFFFFFF. -/
theorem C4_check_erase_never_rejects :
    checkErase 8 bundleZero notErasedFlash = POutcome.resolved bundleZero ∧
    isAllZeroed notErasedFlash.imageRegion = false :=
  ⟨rfl, rfl⟩

/-- C5: `checkCompatibility` resolves with the bundle exactly when all
three predicates hold; otherwise it rejects with one of three distinct
errors, each holding exactly when the predicate it names is the first
failing one in the order header-code, device-type, version — so the
reported error always identifies a predicate that indeed failed. -/
theorem C5_check_compatibility (expected : Nat) (allowed : List Nat)
    (b : Bundle) :
    (checkCompatibility expected allowed b = POutcome.resolved b ↔
      (b.imageInfo.headerCode = expected ∧
        b.imageInfo.intendedDevice ∈ allowed ∧
        b.imageInfo.containedVersion = b.version)) ∧
    (checkCompatibility expected allowed b
        = POutcome.rejected "Invalid header code." ↔
      b.imageInfo.headerCode ≠ expected) ∧
    (checkCompatibility expected allowed b
        = POutcome.rejected "Incorrect device type." ↔
      (b.imageInfo.headerCode = expected ∧
        b.imageInfo.intendedDevice ∉ allowed)) ∧
    (checkCompatibility expected allowed b
        = POutcome.rejected "Incorrect version." ↔
      (b.imageInfo.headerCode = expected ∧
        b.imageInfo.intendedDevice ∈ allowed ∧
        b.imageInfo.containedVersion ≠ b.version)) := by
  by_cases h1 : b.imageInfo.headerCode = expected <;>
    by_cases h2 : b.imageInfo.intendedDevice ∈ allowed <;>
    by_cases h3 : b.imageInfo.containedVersion = b.version <;>
    simp [checkCompatibility, h1, h2, h3]

/-- Closed witness for C5 on a bundle whose device type is outside the
allowed set. -/
theorem C5_check_compatibility_witness :
    (checkCompatibility 5 [4, 7] ⟨1, 1, 1, ⟨5, 9, 1⟩⟩
        = POutcome.resolved ⟨1, 1, 1, ⟨5, 9, 1⟩⟩ ↔
      ((⟨1, 1, 1, ⟨5, 9, 1⟩⟩ : Bundle).imageInfo.headerCode = 5 ∧
        (⟨1, 1, 1, ⟨5, 9, 1⟩⟩ : Bundle).imageInfo.intendedDevice ∈ [4, 7] ∧
        (⟨1, 1, 1, ⟨5, 9, 1⟩⟩ : Bundle).imageInfo.containedVersion
          = (⟨1, 1, 1, ⟨5, 9, 1⟩⟩ : Bundle).version)) ∧
    (checkCompatibility 5 [4, 7] ⟨1, 1, 1, ⟨5, 9, 1⟩⟩
        = POutcome.rejected "Invalid header code." ↔
      (⟨1, 1, 1, ⟨5, 9, 1⟩⟩ : Bundle).imageInfo.headerCode ≠ 5) ∧
    (checkCompatibility 5 [4, 7] ⟨1, 1, 1, ⟨5, 9, 1⟩⟩
        = POutcome.rejected "Incorrect device type." ↔
      ((⟨1, 1, 1, ⟨5, 9, 1⟩⟩ : Bundle).imageInfo.headerCode = 5 ∧
        (⟨1, 1, 1, ⟨5, 9, 1⟩⟩ : Bundle).imageInfo.intendedDevice ∉ [4, 7])) ∧
    (checkCompatibility 5 [4, 7] ⟨1, 1, 1, ⟨5, 9, 1⟩⟩
        = POutcome.rejected "Incorrect version." ↔
      ((⟨1, 1, 1, ⟨5, 9, 1⟩⟩ : Bundle).imageInfo.headerCode = 5 ∧
        (⟨1, 1, 1, ⟨5, 9, 1⟩⟩ : Bundle).imageInfo.intendedDevice ∈ [4, 7] ∧
        (⟨1, 1, 1, ⟨5, 9, 1⟩⟩ : Bundle).imageInfo.containedVersion
          ≠ (⟨1, 1, 1, ⟨5, 9, 1⟩⟩ : Bundle).version)) :=
  C5_check_compatibility 5 [4, 7] ⟨1, 1, 1, ⟨5, 9, 1⟩⟩

/-- C6 as stated is false on the boundary: with bundle version 1 and
reported version 0.9999 the absolute difference is exactly 1e-4 — not
strictly below 1e-4 — yet `checkNewFirmware` resolves, because the source
rejects only when the difference strictly exceeds 0.0001 (line 1193). -/
theorem C6_boundary_counterexample :
    checkNewFirmware 1 (9999 / 10000) = POutcome.resolved () ∧
    ¬ (|(1 : ℚ) - 9999 / 10000| < 1 / 10000) := by
  have habs : |(1 : ℚ) - 9999 / 10000| = 1 / 10000 := by
    have h0 : (1 : ℚ) - 9999 / 10000 = 1 / 10000 := by norm_num
    rw [h0, abs_of_pos (by norm_num)]
  constructor
  · simp only [checkNewFirmware, habs]
    rw [if_neg (by norm_num)]
  · rw [habs]
    norm_num

/-- C6 amended: `checkNewFirmware` resolves exactly when the absolute
difference between the bundle's version and the reported version is AT
MOST 1e-4; it rejects exactly on a strict excess. -/
theorem C6_tolerance_amended (v r : ℚ) :
    checkNewFirmware v r = POutcome.resolved () ↔ |v - r| ≤ 1 / 10000 := by
  simp only [checkNewFirmware]
  split
  · next h => exact iff_of_false (by simp) (by linarith)
  · next h => exact iff_of_true rfl (le_of_not_lt h)

/-- Closed witness for the amended C6 at equal versions. -/
theorem C6_tolerance_amended_witness :
    checkNewFirmware 1 1 = POutcome.resolved () ↔ |(1 : ℚ) - 1| ≤ 1 / 10000 :=
  C6_tolerance_amended 1 1

/-- C7: the claim matches the spec's intent — `writeImageInformation` even
installs the 85-90 interpolation state (lines 960-962 of the source) — but
the code streams nothing during the image-info write: only `writeImage`
ever sets `shouldUpdateProgressBar` (line 909), and its completion handler
has already cleared the flag (line 926) by the time `writeImageInformation`
runs. On a concrete successful run (72-word image, 32-word image-info,
block size 8) the image write emits 9 interpolated values while the
image-info write — despite completing 4 chunks and having its scale set to
(90-85)/32 — emits none. -/
theorem C7_image_info_no_progress :
    (writeImageInformation 85 90 32 8
        (writeImage 30 85 72 8 initialProgressState).2).1 = [] ∧
    (writeImage 30 85 72 8 initialProgressState).1.length = 9 ∧
    ((writeImage 30 85 72 8 initialProgressState).2).shouldUpdateProgressBar
      = false ∧
    (writeImageInformation 85 90 32 8
        (writeImage 30 85 72 8 initialProgressState).2).2.curScaling
      = (90 - 85) / ((32 : Nat) : ℚ) ∧
    (createFlashOperation 0 32 8 true []).length = 4 :=
  ⟨rfl, rfl, rfl, rfl, rfl⟩

/-- C8 as stated is false: when the `closeDevice` call after the reboot
request fails, its rejection (the bundle itself, stringified) is caught by
the next link's `reportError` handler (line 1302 of the source), which
rejects the whole pipeline — the close error is not swallowed and the
wait-for-enumeration stage never runs. -/
theorem C8_close_failure_counterexample :
    (updateFirmware cfgCloseFail bundleZero).1
      = POutcome.rejected "[object Object]" ∧
    Stage.waitForEnumeration ∉ (updateFirmware cfgCloseFail bundleZero).2 :=
  ⟨rfl, by decide⟩

/-- C8 amended: every stage failure terminates the pipeline. An all-success
run resolves after all 20 stage functions ran; a close failure rejects the
pipeline with the stringified bundle and wait-for-enumeration never runs;
other stages reject the pipeline with their own error and the following
stages never run — except that a `restartAndUpgrade` failure is routed
through `forceClose`, whose dereference of the still-undefined hoisted
`device` variable replaces the stage's error with a TypeError. -/
theorem C8_error_paths_amended :
    ((updateFirmware cfgAllOk bundleZero).1
        = POutcome.resolved ⟨1234, 1234, 1, ⟨0x4C4A4658, 7, 1⟩⟩ ∧
      (updateFirmware cfgAllOk bundleZero).2.length = 20) ∧
    ((updateFirmware cfgCloseFail bundleZero).1
        = POutcome.rejected "[object Object]" ∧
      Stage.waitForEnumeration ∉ (updateFirmware cfgCloseFail bundleZero).2) ∧
    ((updateFirmware cfgCompatFail bundleZero).1
        = POutcome.rejected "Invalid header code." ∧
      Stage.eraseImage ∉ (updateFirmware cfgCompatFail bundleZero).2) ∧
    ((updateFirmware cfgWriteFail bundleZero).1
        = POutcome.rejected "writeImage device error" ∧
      Stage.restartAndUpgrade ∉ (updateFirmware cfgWriteFail bundleZero).2) ∧
    ((updateFirmware cfgRestartFail bundleZero).1
        = POutcome.rejected "TypeError: Cannot read property of undefined" ∧
      Stage.waitForEnumeration ∉ (updateFirmware cfgRestartFail bundleZero).2) ∧
    ((updateFirmware cfgCheckFwFail bundleZero).1
        = POutcome.rejected "New firmware version does not reflect upgrade.") :=
  ⟨⟨rfl, rfl⟩, ⟨rfl, by decide⟩, ⟨rfl, by decide⟩, ⟨rfl, by decide⟩,
    ⟨rfl, by decide⟩, rfl⟩

/-- On a schedule where the device never reappears, the polling loop is
still pending after any number of polls. -/
theorem waitRunFrom_neverListed (b : Bundle) :
    ∀ n i, waitRunFrom schedNeverListed b i n = POutcome.pending := by
  intro n
  induction n with
  | zero => intro i; rfl
  | succ n ih =>
    intro i
    simpa [waitRunFrom, schedNeverListed] using ih (i + 1)

/-- C9 as stated is false: no upper time limit exists in
`waitForEnumeration`. On a run where the device never reappears, after
86400 polls — a full day at the 1-second poll interval, far beyond any
"order of a minute" bound — the operation has neither resolved nor
rejected: it simply keeps polling, and no enumeration-timeout error exists
anywhere in the code. -/
theorem C9_unbounded_polling_counterexample :
    waitForEnumerationRun schedNeverListed bundleZero 86400
      = POutcome.pending :=
  waitRunFrom_neverListed bundleZero 86400 0

/-- The polling loop resolves within `n` polls exactly when some earlier
poll lists the target serial and opens successfully. -/
theorem waitRunFrom_resolved_iff (schedule : Nat → PollStep) (b : Bundle) :
    ∀ n i, (∃ b2, waitRunFrom schedule b i n = POutcome.resolved b2) ↔
      (∃ k, k < n ∧ schedule (i + k) = PollStep.listedOpenOk) := by
  intro n
  induction n with
  | zero =>
    intro i
    constructor
    · rintro ⟨b2, h⟩
      simp [waitRunFrom] at h
    · rintro ⟨k, hk, -⟩
      omega
  | succ n ih =>
    intro i
    cases hsi : schedule i with
    | listedOpenOk =>
      constructor
      · rintro -
        exact ⟨0, by omega, by simpa using hsi⟩
      · rintro -
        exact ⟨⟨b.serial, b.serial, b.version, b.imageInfo⟩, by
          simp [waitRunFrom, hsi]⟩
    | notListed =>
      have hstep : waitRunFrom schedule b i (n + 1)
          = waitRunFrom schedule b (i + 1) n := by
        rw [waitRunFrom, hsi]
      constructor
      · rintro ⟨b2, h⟩
        rw [hstep] at h
        obtain ⟨k, hk, hok⟩ := (ih (i + 1)).mp ⟨b2, h⟩
        refine ⟨k + 1, by omega, ?_⟩
        have harg : i + (k + 1) = i + 1 + k := by omega
        rw [harg]
        exact hok
      · rintro ⟨k, hk, hok⟩
        have hknz : k ≠ 0 := by
          intro h0
          rw [h0] at hok
          simp at hok
          rw [hok] at hsi
          cases hsi
        obtain ⟨k2, rfl⟩ := Nat.exists_eq_succ_of_ne_zero hknz
        have harg : i + (k2 + 1) = i + 1 + k2 := by omega
        rw [harg] at hok
        obtain ⟨b2, h⟩ := (ih (i + 1)).mpr ⟨k2, by omega, hok⟩
        exact ⟨b2, by rw [hstep]; exact h⟩
    | listedOpenFail =>
      have hstep : waitRunFrom schedule b i (n + 1)
          = waitRunFrom schedule b (i + 1) n := by
        rw [waitRunFrom, hsi]
      constructor
      · rintro ⟨b2, h⟩
        rw [hstep] at h
        obtain ⟨k, hk, hok⟩ := (ih (i + 1)).mp ⟨b2, h⟩
        refine ⟨k + 1, by omega, ?_⟩
        have harg : i + (k + 1) = i + 1 + k := by omega
        rw [harg]
        exact hok
      · rintro ⟨k, hk, hok⟩
        have hknz : k ≠ 0 := by
          intro h0
          rw [h0] at hok
          simp at hok
          rw [hok] at hsi
          cases hsi
        obtain ⟨k2, rfl⟩ := Nat.exists_eq_succ_of_ne_zero hknz
        have harg : i + (k2 + 1) = i + 1 + k2 := by omega
        rw [harg] at hok
        obtain ⟨b2, h⟩ := (ih (i + 1)).mpr ⟨k2, by omega, hok⟩
        exact ⟨b2, by rw [hstep]; exact h⟩

/-- When the polling loop does resolve, the resolved bundle carries the
newly opened device, opened by the captured target serial. -/
theorem waitRunFrom_resolved_eq (schedule : Nat → PollStep) (b : Bundle) :
    ∀ n i b2, waitRunFrom schedule b i n = POutcome.resolved b2 →
      b2 = ⟨b.serial, b.serial, b.version, b.imageInfo⟩ := by
  intro n
  induction n with
  | zero =>
    intro i b2 h
    simp [waitRunFrom] at h
  | succ n ih =>
    intro i b2 h
    cases hsi : schedule i with
    | listedOpenOk =>
      rw [waitRunFrom, hsi] at h
      cases h
      rfl
    | notListed =>
      rw [waitRunFrom, hsi] at h
      exact ih (i + 1) b2 h
    | listedOpenFail =>
      rw [waitRunFrom, hsi] at h
      exact ih (i + 1) b2 h

/-- The polling loop never rejects. -/
theorem waitRunFrom_ne_rejected (schedule : Nat → PollStep) (b : Bundle) :
    ∀ n i e, waitRunFrom schedule b i n ≠ POutcome.rejected e := by
  intro n
  induction n with
  | zero =>
    intro i e h
    simp [waitRunFrom] at h
  | succ n ih =>
    intro i e h
    cases hsi : schedule i with
    | listedOpenOk => rw [waitRunFrom, hsi] at h; cases h
    | notListed => rw [waitRunFrom, hsi] at h; exact ih (i + 1) e h
    | listedOpenFail => rw [waitRunFrom, hsi] at h; exact ih (i + 1) e h

/-- C9 amended: `waitForEnumeration` resolves — with the bundle updated to
a device opened by the captured serial — exactly when some poll both lists
the target serial and opens successfully; it NEVER rejects: the source
imposes no upper time limit and has no enumeration-timeout error, so when
the device never reappears it polls forever. -/
theorem C9_enumeration_amended (schedule : Nat → PollStep) (b : Bundle) :
    (∀ n, (∃ b2, waitForEnumerationRun schedule b n = POutcome.resolved b2) ↔
      (∃ k, k < n ∧ schedule k = PollStep.listedOpenOk)) ∧
    (∀ n b2, waitForEnumerationRun schedule b n = POutcome.resolved b2 →
      b2 = ⟨b.serial, b.serial, b.version, b.imageInfo⟩) ∧
    (∀ n e, waitForEnumerationRun schedule b n ≠ POutcome.rejected e) := by
  refine ⟨?_, ?_, ?_⟩
  · intro n
    have h := waitRunFrom_resolved_iff schedule b n 0
    simpa [waitForEnumerationRun] using h
  · intro n b2 h
    exact waitRunFrom_resolved_eq schedule b n 0 b2 h
  · intro n e
    exact waitRunFrom_ne_rejected schedule b n 0 e

/-- Closed witness for the amended C9 on the schedule that succeeds at
poll 3. -/
theorem C9_enumeration_amended_witness :
    (∀ n, (∃ b2, waitForEnumerationRun schedFoundAtThree bundleZero n
        = POutcome.resolved b2) ↔
      (∃ k, k < n ∧ schedFoundAtThree k = PollStep.listedOpenOk)) ∧
    (∀ n b2, waitForEnumerationRun schedFoundAtThree bundleZero n
        = POutcome.resolved b2 →
      b2 = ⟨bundleZero.serial, bundleZero.serial, bundleZero.version,
        bundleZero.imageInfo⟩) ∧
    (∀ n e, waitForEnumerationRun schedFoundAtThree bundleZero n
      ≠ POutcome.rejected e) :=
  C9_enumeration_amended schedFoundAtThree bundleZero

/-- C10: `readImage` and `readImageInformation` resolve with the bundle
object itself for EVERY flash content — the words accumulated by the flash
primitive are discarded both by `createFlashOperation`'s final callback
(line 714 of the source) and again by the two read wrappers (lines 768 and
796), so no caller can observe what is actually stored in flash. -/
theorem C10_reads_resolve_bundle (blockSize : Nat) (bundle : Bundle)
    (imageRegion infoRegion : List Nat) :
    readImage blockSize bundle imageRegion = POutcome.resolved bundle ∧
    readImageInformation blockSize bundle infoRegion
      = POutcome.resolved bundle :=
  ⟨rfl, rfl⟩

/-- Closed witness for C10 on concrete flash contents. -/
theorem C10_reads_resolve_bundle_witness :
    readImage 8 bundleZero [1, 2, 3] = POutcome.resolved bundleZero ∧
    readImageInformation 8 bundleZero [4, 5] = POutcome.resolved bundleZero :=
  C10_reads_resolve_bundle 8 bundleZero [1, 2, 3] [4, 5]

end T7Upgrade
